import Mathlib

/-!
Verification development for the energy-meter setup tool
(`energy_meter_setup_tool.py`, with the sibling variants `meter_setuptool.py`
and `meter_setuptools.py` where a claim cites them).

The value codec works on 16-bit register words via Python binary-digit
strings (`format(i, '016b')`, `int(s, 2)`).  Digit strings are modelled as
`List Bool` (most significant digit first); `msbVal` is `int(s, 2)` and
`fmtBin w n` is `format(n, '0{w}b')` — left-padded with zeros to width `w`,
never truncated, exactly as in Python.
-/

/-- Numeric value of one binary digit. -/
def bitv (b : Bool) : Nat := if b then 1 else 0

/-- Value of a most-significant-first digit string, i.e. Python `int(s, 2)`. -/
def msbVal (l : List Bool) : Nat := l.foldl (fun a b => 2 * a + bitv b) 0

/-- Value of a least-significant-first digit string (helper for building digits). -/
def lsbVal : List Bool → Nat
  | [] => 0
  | b :: bs => bitv b + 2 * lsbVal bs

/-- Binary digits of `n`, least significant first, with explicit structural fuel
(`fuel ≥ n` suffices, since the argument at least halves every step). -/
def n2bAux : Nat → Nat → List Bool
  | 0, _ => []
  | fuel + 1, n => if n = 0 then [] else decide (n % 2 = 1) :: n2bAux fuel (n / 2)

/-- Digit string of `n` as printed by Python `format(n, 'b')`: most significant
first, and the single digit `0` for zero. -/
def binDigits (n : Nat) : List Bool :=
  if n = 0 then [false] else (n2bAux n n).reverse

/-- Python `format(n, '0{w}b')`: the digit string of `n`, left-padded with
zeros to width `w` (longer strings are kept whole, never truncated). -/
def fmtBin (w n : Nat) : List Bool :=
  List.replicate (w - (binDigits n).length) false ++ binDigits n

/-- Digit character used when a digit string is rendered as a Python string. -/
def binChar (b : Bool) : Char := if b then '1' else '0'

/-- Embedding of `u32` (energy_meter_setup_tool.py:48): concatenate the 16-bit
digit strings of all words and parse the result with `int(_, 2)`.  Python
raises on `int('', 2)`, hence the empty-list guard. -/
def u32 (value_list : List Nat) : Option Nat :=
  if value_list.isEmpty then none
  else some (msbVal (value_list.flatMap (fmtBin 16)))

/-- Embedding of `reverse_u32` (energy_meter_setup_tool.py:53): render the
integer with `format(_, '032b')` and split the digit string after 16 digits. -/
def reverse_u32 (integer_value : Nat) : List Nat :=
  [msbVal ((fmtBin 32 integer_value).take 16), msbVal ((fmtBin 32 integer_value).drop 16)]

/-- Embedding of `u16` (energy_meter_setup_tool.py:63): the first word
verbatim; indexing an empty list raises in Python. -/
def u16 (value_list : List Nat) : Option Nat :=
  match value_list with
  | x :: _ => some x
  | [] => none

/-- Embedding of `binary` (energy_meter_setup_tool.py:69): each word rendered
with `format(_, '016b')` and all digit strings concatenated in word order. -/
def binary (value_list : List Nat) : String :=
  String.mk ((value_list.flatMap (fmtBin 16)).map binChar)

/-- Embedding of `hex_str` (energy_meter_setup_tool.py:74): the first two words
as lowercase hex with no fixed width; fewer than two words raise in Python. -/
def hex_str (value_list : List Nat) : Option String :=
  match value_list with
  | a :: b :: _ => some (String.mk (Nat.toDigits 16 a ++ Nat.toDigits 16 b))
  | _ => none

/-- Embedding of `ieee754` (energy_meter_setup_tool.py:29).  A float32 value is
identified with its 32-bit pattern: the function masks each of the first two
words to 16 bits, concatenates their 16-bit digit strings and parses the
pattern (`struct.unpack('>f', ...)` is the bijection from patterns to values
and is left implicit).  Fewer than two words raise in Python. -/
def ieee754 (value_list : List Nat) : Option Nat :=
  match value_list with
  | w0 :: w1 :: _ =>
      some (msbVal (fmtBin 16 (w0 &&& 0xffff) ++ fmtBin 16 (w1 &&& 0xffff)))
  | _ => none

/-- Embedding of `reverse_ieee754` (energy_meter_setup_tool.py:36) on the
32-bit pattern of the given float: `struct.pack('>f', v)` yields the pattern,
which is rendered with `format(_, '032b')` and split after 16 digits. -/
def reverse_ieee754 (pattern : Nat) : List Nat :=
  [msbVal ((fmtBin 32 pattern).take 16), msbVal ((fmtBin 32 pattern).drop 16)]

/-- Embedding of `fineco_generate_key` (energy_meter_setup_tool.py:120). -/
def fineco_generate_key (meter_serial_number : Nat) : Nat :=
  ((meter_serial_number >>> 24) + (meter_serial_number >>> 8)) &&& 0x1234

/-- The float32 bit pattern produced by `struct.pack('>f', n)` for a
nonnegative integer payload `n` (round to nearest, ties to even; overflow to
infinity).  It models the implicit int-to-float32 conversion on the
`reverse_ieee754(payload)` write path. -/
def f32bitsOfNat (n : Nat) : Nat :=
  if n = 0 then 0
  else
    let k := (binDigits n).length
    let e := k - 1
    let qr : Nat × Nat :=
      if k ≤ 24 then (n <<< (24 - k), e)
      else
        let sh := k - 24
        let q := n >>> sh
        let r := n % 2 ^ sh
        let half := 2 ^ (sh - 1)
        let q2 := if half < r ∨ (r = half ∧ q % 2 = 1) then q + 1 else q
        if q2 = 2 ^ 24 then (2 ^ 23, e + 1) else (q2, e)
    if 254 < qr.2 + 127 then 0x7f800000
    else (qr.2 + 127) <<< 23 + (qr.1 - 2 ^ 23)

/-- Truncation of the float32 value with bit pattern `p` to a Python int
(`int(value)`), used where the script converts a decoded reading with
`int(...)`.  Returns `none` where Python `int()` raises (infinities, NaN). -/
def f32ToIntTrunc (p : Nat) : Option Int :=
  let sign := p >>> 31
  let e := (p >>> 23) % 256
  let m := p % 2 ^ 23
  if e = 255 then none
  else
    let mag : Nat :=
      if e < 127 then 0
      else if 23 ≤ e - 127 then (2 ^ 23 + m) <<< (e - 127 - 23)
      else (2 ^ 23 + m) >>> (23 - (e - 127))
    some (if sign = 1 then -(mag : Int) else (mag : Int))

/-- The fatal conditions of the tool, one constructor per abort site. -/
inductive Err : Type
  | transport (reg : String)
  | missingPayload (reg : String)
  | unsupportedWriteType (reg : String)
  | unsupportedFunctionCode
  | indexError
  | badRelayState (s : String)
  | relayModelUnsupported
  | relayBadArg
  | typeError
  | unknownBaudValue
deriving DecidableEq

/-- Result of a command step: `ok` carries the returned value, `fatal` models
`sys.exit(1)` after an error print (and the uncaught exceptions that likewise
abort the process). -/
inductive Outcome (α : Type) : Type
  | ok (a : α) : Outcome α
  | fatal (e : Err) : Outcome α
deriving DecidableEq

/-- The six supported meter models (`--meter-model` choices). -/
inductive Model : Type
  | SDM72 | SDM120 | SDM230 | SDM630 | EM115 | EM737
deriving DecidableEq

/-- The response-type tag of a catalog entry (last element of each register
list; `blank` is the empty string used for write-only registers). -/
inductive DType : Type
  | F32 | U32 | U16 | bin | hex | blank
deriving DecidableEq

/-- One catalog entry: function code, register address, word count, info text
and response type, exactly as listed in `meter_regs`. -/
structure RegEntry : Type where
  fc : Nat
  addr : Nat
  cnt : Nat
  info : String
  dt : DType
deriving DecidableEq

/-- A decoded reading value: integer (U32/U16), float32 given by its 32-bit
pattern (F32), or string (bin/hex). -/
inductive Value : Type
  | int (n : Nat)
  | f32 (bits : Nat)
  | str (s : String)
deriving DecidableEq

/-- The result dictionary of `modbus_req`. -/
structure Reading : Type where
  value : Option Value
  info_text : String
deriving DecidableEq

/-- A write payload as passed by the callers: a plain integer or a word list. -/
inductive Payload : Type
  | int (n : Nat)
  | list (l : List Nat)
deriving DecidableEq

/-- Python truthiness test `not payload` on the payload argument: absent,
the integer `0`, and the empty list are all falsy. -/
def payloadFalsy : Option Payload → Bool
  | none => true
  | some (.int n) => n == 0
  | some (.list l) => l.isEmpty

/-- One bus transaction as issued through the pymodbus client. -/
inductive BusOp : Type
  | readH (addr cnt unit_id : Nat)
  | readI (addr cnt unit_id : Nat)
  | write (addr : Nat) (payload : Payload) (unit_id : Nat)
deriving DecidableEq

/-- The transport collaborator: a response word list per transaction, or
`none` for an error response (`res.isError()`). -/
def Client : Type := BusOp → Option (List Nat)

/-- Number of write transactions in a trace. -/
def countWrites (l : List BusOp) : Nat :=
  l.countP fun op => match op with
    | .write _ _ _ => true
    | _ => false

/-- The register catalog `meter_regs` of energy_meter_setup_tool.py:139,
translated entry by entry (addresses, word counts, info texts, types). -/
def meter_regs : Model → List (String × RegEntry)
  | .SDM72 =>
      [("kWh", ⟨4, 0x156, 2, "kWh", .F32⟩),
       ("imp_kWh", ⟨4, 0x48, 2, "kWh", .F32⟩),
       ("exp_kWh", ⟨4, 0x4A, 2, "kWh", .F32⟩),
       ("power", ⟨4, 0x34, 2, "W", .F32⟩),
       ("L1A", ⟨4, 0x6, 2, "A", .F32⟩),
       ("L2A", ⟨4, 0x8, 2, "A", .F32⟩),
       ("L3A", ⟨4, 0xA, 2, "A", .F32⟩),
       ("L1V", ⟨4, 0x0, 2, "V", .F32⟩),
       ("L2V", ⟨4, 0x2, 2, "V", .F32⟩),
       ("L3V", ⟨4, 0x4, 2, "V", .F32⟩),
       ("Totpf", ⟨4, 0x3E, 2, "", .F32⟩),
       ("TotHz", ⟨4, 0x46, 2, "Hz", .F32⟩),
       ("serial_no", ⟨3, 0xFC00, 2, "(integer)", .U32⟩),
       ("serial_no_bin", ⟨3, 0xFC00, 2, "(binary)", .bin⟩),
       ("serial_no_hex", ⟨3, 0xFC00, 2, "(hex)", .hex⟩),
       ("baudrate", ⟨3, 0x1C, 2, "(integer)", .F32⟩),
       ("set_baudrate", ⟨16, 0x1C, 2, "", .F32⟩),
       ("unit_id", ⟨3, 0x14, 2, "(modbus id/address)", .F32⟩),
       ("set_unit_id", ⟨16, 0x14, 2, "", .F32⟩)]
  | .SDM120 =>
      [("kWh", ⟨4, 0x156, 2, "kWh", .F32⟩),
       ("imp_kWh", ⟨4, 0x48, 2, "kWh", .F32⟩),
       ("exp_kWh", ⟨4, 0x4A, 2, "kWh", .F32⟩),
       ("power", ⟨4, 0x34, 2, "W", .F32⟩),
       ("L1A", ⟨4, 0x6, 2, "A", .F32⟩),
       ("L1V", ⟨4, 0x0, 2, "V", .F32⟩),
       ("Totpf", ⟨4, 0x3E, 2, "", .F32⟩),
       ("TotHz", ⟨4, 0x46, 2, "Hz", .F32⟩),
       ("serial_no", ⟨3, 0xFC00, 2, "(integer)", .U32⟩),
       ("serial_no_bin", ⟨3, 0xFC00, 2, "(binary)", .bin⟩),
       ("serial_no_hex", ⟨3, 0xFC00, 2, "(hex)", .hex⟩),
       ("baudrate", ⟨3, 0x1C, 2, "(integer)", .F32⟩),
       ("set_baudrate", ⟨16, 0x1C, 2, "", .F32⟩),
       ("unit_id", ⟨3, 0x14, 2, "(modbus id/address)", .F32⟩),
       ("set_unit_id", ⟨16, 0x14, 2, "", .F32⟩)]
  | .SDM230 =>
      [("kWh", ⟨4, 0x156, 2, "kWh", .F32⟩),
       ("imp_kWh", ⟨4, 0x48, 2, "kWh", .F32⟩),
       ("exp_kWh", ⟨4, 0x4A, 2, "kWh", .F32⟩),
       ("power", ⟨4, 0x34, 2, "W", .F32⟩),
       ("L1A", ⟨4, 0x6, 2, "A", .F32⟩),
       ("L1V", ⟨4, 0x0, 2, "V", .F32⟩),
       ("Totpf", ⟨4, 0x3E, 2, "", .F32⟩),
       ("TotHz", ⟨4, 0x46, 2, "Hz", .F32⟩),
       ("serial_no", ⟨3, 0xFC00, 2, "(integer)", .U32⟩),
       ("serial_no_bin", ⟨3, 0xFC00, 2, "(binary)", .bin⟩),
       ("serial_no_hex", ⟨3, 0xFC00, 2, "(hex)", .hex⟩),
       ("baudrate", ⟨3, 0x1C, 2, "(integer)", .F32⟩),
       ("set_baudrate", ⟨16, 0x1C, 2, "", .F32⟩),
       ("unit_id", ⟨3, 0x14, 2, "(modbus id/address)", .F32⟩),
       ("set_unit_id", ⟨16, 0x14, 2, "", .F32⟩)]
  | .SDM630 =>
      [("kWh", ⟨4, 0x156, 2, "kWh", .F32⟩),
       ("imp_kWh", ⟨4, 0x48, 2, "kWh", .F32⟩),
       ("exp_kWh", ⟨4, 0x4A, 2, "kWh", .F32⟩),
       ("power", ⟨4, 0x34, 2, "W", .F32⟩),
       ("L1A", ⟨4, 0x6, 2, "A", .F32⟩),
       ("L2A", ⟨4, 0x8, 2, "A", .F32⟩),
       ("L3A", ⟨4, 0xA, 2, "A", .F32⟩),
       ("L1V", ⟨4, 0x0, 2, "V", .F32⟩),
       ("L2V", ⟨4, 0x2, 2, "V", .F32⟩),
       ("L3V", ⟨4, 0x4, 2, "V", .F32⟩),
       ("Totpf", ⟨4, 0x3E, 2, "", .F32⟩),
       ("TotHz", ⟨4, 0x46, 2, "Hz", .F32⟩),
       ("serial_no", ⟨3, 0xFC00, 2, "(integer)", .U32⟩),
       ("serial_no_bin", ⟨3, 0xFC00, 2, "(binary)", .bin⟩),
       ("serial_no_hex", ⟨3, 0xFC00, 2, "(hex)", .hex⟩),
       ("baudrate", ⟨3, 0x1C, 2, "(integer)", .F32⟩),
       ("set_baudrate", ⟨16, 0x1C, 2, "", .F32⟩),
       ("unit_id", ⟨3, 0x14, 2, "(modbus id/address)", .F32⟩),
       ("set_unit_id", ⟨16, 0x14, 2, "", .F32⟩)]
  | .EM115 =>
      [("kWh", ⟨4, 0x16A, 2, "kWh", .F32⟩),
       ("imp_kWh", ⟨4, 0x160, 2, "kWh", .F32⟩),
       ("exp_kWh", ⟨4, 0x166, 2, "kWh", .F32⟩),
       ("power", ⟨4, 0x8, 2, "W", .F32⟩),
       ("L1A", ⟨4, 0x6, 2, "A", .F32⟩),
       ("L2A", ⟨4, 0x0, 2, "A", .F32⟩),
       ("L3A", ⟨4, 0x0, 2, "A", .F32⟩),
       ("L1V", ⟨4, 0x2, 2, "V", .F32⟩),
       ("L2V", ⟨4, 0x0, 2, "V", .F32⟩),
       ("L3V", ⟨4, 0x0, 2, "V", .F32⟩),
       ("Totpf", ⟨4, 0xE, 2, "", .F32⟩),
       ("TotHz", ⟨4, 0x4, 2, "Hz", .F32⟩),
       ("serial_no", ⟨4, 0xFF00, 2, "(integer)", .U32⟩),
       ("serial_no_bin", ⟨4, 0xFF00, 2, "(binary)", .bin⟩),
       ("serial_no_hex", ⟨4, 0xFF00, 2, "(hex)", .hex⟩),
       ("set_serial_no", ⟨16, 0xFF00, 2, "", .U32⟩),
       ("relay_state", ⟨4, 0x566, 1, "(01..=on, 10..=off)", .bin⟩),
       ("set_relay_state", ⟨16, 0x566, 2, "", .blank⟩),
       ("baudrate", ⟨4, 0x525, 1, "(integer)", .U16⟩),
       ("set_baudrate", ⟨16, 0x525, 1, "", .blank⟩),
       ("unit_id", ⟨4, 0x524, 1, "(modbus id/address)", .U16⟩),
       ("set_unit_id", ⟨16, 0x524, 1, "", .blank⟩)]
  | .EM737 =>
      [("kWh", ⟨4, 0x700, 2, "kWh", .F32⟩),
       ("imp_kWh", ⟨4, 0x800, 2, "kWh", .F32⟩),
       ("exp_kWh", ⟨4, 0x900, 2, "kWh", .F32⟩),
       ("power", ⟨4, 0x26, 2, "W", .F32⟩),
       ("L1A", ⟨4, 0x16, 2, "A", .F32⟩),
       ("L2A", ⟨4, 0x18, 2, "A", .F32⟩),
       ("L3A", ⟨4, 0x1A, 2, "A", .F32⟩),
       ("L1V", ⟨4, 0x10, 2, "V", .F32⟩),
       ("L2V", ⟨4, 0x12, 2, "V", .F32⟩),
       ("L3V", ⟨4, 0x14, 2, "V", .F32⟩),
       ("Totpf", ⟨4, 0x3E, 2, "", .F32⟩),
       ("TotHz", ⟨4, 0x40, 2, "Hz", .F32⟩),
       ("serial_no", ⟨4, 0xFF00, 2, "(integer)", .U32⟩),
       ("serial_no_bin", ⟨4, 0xFF00, 2, "(binary)", .bin⟩),
       ("serial_no_hex", ⟨4, 0xFF00, 2, "(hex)", .hex⟩),
       ("set_serial_no", ⟨16, 0xFF00, 2, "", .U32⟩),
       ("relay_state", ⟨4, 0x566, 1, "(01..=on, 10..=off)", .bin⟩),
       ("set_relay_state", ⟨16, 0x566, 2, "", .blank⟩),
       ("baudrate", ⟨4, 0x525, 1, "(integer)", .U16⟩),
       ("set_baudrate", ⟨16, 0x525, 1, "", .blank⟩),
       ("unit_id", ⟨3, 0x524, 1, "(modbus id/address)", .U16⟩),
       ("set_unit_id", ⟨16, 0x524, 1, "", .blank⟩)]

/-- Decoding of a non-empty response register list per the response type
(energy_meter_setup_tool.py:305), with `fatal` for the uncaught index errors
a too-short list raises inside the decoder. -/
def decodeValue (dt : DType) (regs : List Nat) : Outcome (Option Value) :=
  match dt with
  | .F32 =>
      match ieee754 regs with
      | some p => .ok (some (.f32 p))
      | none => .fatal .indexError
  | .U32 =>
      match u32 regs with
      | some n => .ok (some (.int n))
      | none => .fatal .indexError
  | .U16 =>
      match u16 regs with
      | some n => .ok (some (.int n))
      | none => .fatal .indexError
  | .bin => .ok (some (.str (binary regs)))
  | .hex =>
      match hex_str regs with
      | some s => .ok (some (.str s))
      | none => .fatal .indexError
  | .blank => .ok none

/-- Payload encoding before a write (energy_meter_setup_tool.py:280): `F32`
and `U32` payloads are numbers converted to word lists, an empty response
type passes the payload through verbatim, any other type is a fatal error. -/
def encodePayload (register_name : String) (dt : DType) (p : Payload) : Outcome Payload :=
  match dt with
  | .blank => .ok p
  | .F32 =>
      match p with
      | .int n => .ok (.list (reverse_ieee754 (f32bitsOfNat n)))
      | .list _ => .fatal .typeError
  | .U32 =>
      match p with
      | .int n => .ok (.list (reverse_u32 n))
      | .list _ => .fatal .typeError
  | _ => .fatal (.unsupportedWriteType register_name)

/-- Issue one transaction and decode the response registers
(energy_meter_setup_tool.py:294): an error response is fatal; an empty
register list yields an absent value. -/
def runOp (register_name : String) (e : RegEntry) (c : Client) (op : BusOp) :
    Outcome Reading × List BusOp :=
  match c op with
  | none => (.fatal (.transport register_name), [op])
  | some regs =>
      if regs.isEmpty then (.ok ⟨none, e.info⟩, [op])
      else
        match decodeValue e.dt regs with
        | .fatal err => (.fatal err, [op])
        | .ok v => (.ok ⟨v, e.info⟩, [op])

/-- Embedding of `modbus_req` (energy_meter_setup_tool.py:129): catalog
lookup, dispatch on the function code, payload check and encoding for writes,
and decoding of the response.  The returned list is the trace of bus
transactions issued. -/
def modbus_req (m : Model) (register_name : String) (c : Client)
    (payload : Option Payload) (unit_id : Nat) : Outcome Reading × List BusOp :=
  match List.lookup register_name (meter_regs m) with
  | none => (.ok ⟨none, "Not supported for this model"⟩, [])
  | some e =>
      if e.fc = 3 then runOp register_name e c (.readH e.addr e.cnt unit_id)
      else if e.fc = 4 then runOp register_name e c (.readI e.addr e.cnt unit_id)
      else if e.fc = 16 then
        if payloadFalsy payload then (.fatal (.missingPayload register_name), [])
        else
          match payload with
          | none => (.fatal (.missingPayload register_name), [])
          | some pl =>
              match encodePayload register_name e.dt pl with
              | .fatal err => (.fatal err, [])
              | .ok enc => runOp register_name e c (.write e.addr enc unit_id)
      else (.fatal .unsupportedFunctionCode, [])

/-- Whether the model name starts with `EM` (`args.meter_model[:2] == 'EM'`). -/
def Model.isEM : Model → Bool
  | .EM115 | .EM737 => true
  | _ => false

/-- Embedding of `get_relay_state` (energy_meter_setup_tool.py:341): read the
relay register and map the two accepted 16-digit patterns to `on`/`off`; any
other reading is fatal. -/
def get_relay_state (m : Model) (c : Client) (unit_id : Nat) :
    Outcome String × List BusOp :=
  match modbus_req m "relay_state" c none unit_id with
  | (.fatal e, t) => (.fatal e, t)
  | (.ok reading, t) =>
      match reading.value with
      | some (.str s) =>
          if s = "1010101010101010" ∨ s = "0101010101010101" then
            (.ok (if s = "0101010101010101" then "on" else "off"), t)
          else (.fatal (.badRelayState s), t)
      | _ => (.fatal (.badRelayState ""), t)

/-- Normalisation of the requested relay state
(energy_meter_setup_tool.py:356): `0` means `off`, `1` means `on`. -/
def normalize_set_state : Option String → Option String
  | some "0" => some "off"
  | some "1" => some "on"
  | s => s

/-- The accepted relay-state arguments (energy_meter_setup_tool.py:369). -/
def relayArgOk : Option String → Bool
  | none => true
  | some s => s == "on" || s == "off" || s == "auto"

/-- The fixed state codes (energy_meter_setup_tool.py:397). -/
def state_value_dict : String → Option Nat
  | "on" => some 21845
  | "off" => some 43690
  | "auto" => some 34952
  | _ => none

/-- Embedding of `modbus_relay` (energy_meter_setup_tool.py:353): model and
argument checks, read of the current state, no-op when it already matches,
serial-number read and key derivation, coded write, and confirming re-read
(a mismatch there is only a warning; the result is the re-read state). -/
def modbus_relay (m : Model) (set_relay : Option String) (c : Client)
    (unit_id : Nat) : Outcome (Option String) × List BusOp :=
  let set_state := normalize_set_state set_relay
  if ¬ m.isEM then (.fatal .relayModelUnsupported, [])
  else if ¬ relayArgOk set_state then (.fatal .relayBadArg, [])
  else
    match get_relay_state m c unit_id with
    | (.fatal e, t1) => (.fatal e, t1)
    | (.ok cur_state, t1) =>
        if set_state = some cur_state then (.ok (some cur_state), t1)
        else
          match modbus_req m "serial_no" c none unit_id with
          | (.fatal e, t2) => (.fatal e, t1 ++ t2)
          | (.ok rd, t2) =>
              match rd.value with
              | some (.int serial_no) =>
                  let key := fineco_generate_key serial_no
                  match set_state with
                  | none => (.ok none, t1 ++ t2)
                  | some st =>
                      match state_value_dict st with
                      | none => (.fatal .relayBadArg, t1 ++ t2)
                      | some state_value =>
                          match modbus_req m "set_relay_state" c
                              (some (.list [key, state_value])) unit_id with
                          | (.fatal e, t3) => (.fatal e, t1 ++ t2 ++ t3)
                          | (.ok _, t3) =>
                              match get_relay_state m c unit_id with
                              | (.fatal e, t4) => (.fatal e, t1 ++ t2 ++ t3 ++ t4)
                              | (.ok cur2, t4) =>
                                  (.ok (some cur2), t1 ++ t2 ++ t3 ++ t4)
              | _ => (.fatal .typeError, t1 ++ t2)

/-- Python truthiness of an optional integer argument (`not unit_id`). -/
def optFalsy : Option Nat → Bool
  | none => true
  | some n => n == 0

/-- Python `int()` on a reading value: integers pass through, float32
readings truncate toward zero, anything else raises. -/
def pyInt : Option Value → Option Int
  | some (.int n) => some n
  | some (.f32 p) => f32ToIntTrunc p
  | _ => none

/-- Embedding of `modbus_unit_id` (energy_meter_setup_tool.py:497), with a
structural fuel bounding the recursion depth: each call reads the current
unit id and, when a new id was requested, writes it and calls itself again
at the new address.  A `none` result means the fuel ran out before the
recursion returned, i.e. the Python recursion is still descending at that
depth.  The write always addresses `args_unit_id`, since the recursive
`modbus_req` call omits the unit id. -/
def modbus_unit_id (fuel : Nat) (m : Model) (set_unit_id : Option Nat)
    (unit_id : Option Nat) (args_unit_id : Nat) (c : Client) :
    Option (Outcome Int) × List BusOp :=
  match fuel with
  | 0 => (none, [])
  | fuel + 1 =>
      let uid := if optFalsy unit_id then args_unit_id else unit_id.getD args_unit_id
      match modbus_req m "unit_id" c none uid with
      | (.fatal e, t1) => (some (.fatal e), t1)
      | (.ok rd, t1) =>
          match pyInt rd.value with
          | none => (some (.fatal .typeError), t1)
          | some cur =>
              if optFalsy set_unit_id then (some (.ok cur), t1)
              else
                match modbus_req m "set_unit_id" c
                    (some (.int (set_unit_id.getD 0))) args_unit_id with
                | (.fatal e, t2) => (some (.fatal e), t1 ++ t2)
                | (.ok _, t2) =>
                    let (r3, t3) :=
                      modbus_unit_id fuel m set_unit_id set_unit_id args_unit_id c
                    (r3, t1 ++ t2 ++ t3)

/-- The Eastron baud-rate table (energy_meter_setup_tool.py:451). -/
def baudrate_dict : List (Nat × Nat) :=
  [(0, 2400), (1, 4800), (2, 9600), (3, 19200), (4, 38400), (5, 1200)]

/-- Index of a baud rate in the Eastron table
(`list(baudrate_dict.keys())[list(baudrate_dict.values()).index(rate)]`). -/
def eastron_baud_index (rate : Nat) : Option Nat :=
  (baudrate_dict.find? fun p => p.2 == rate).map fun p => p.1

/-- The two vendor families (energy_meter_setup_tool.py:434): `EM` models are
Fineco, `SDM` models are Eastron. -/
inductive Brand : Type
  | Fineco | Eastron
deriving DecidableEq

/-- Brand of a model by its name prefix. -/
def meter_brand : Model → Brand
  | .EM115 | .EM737 => .Fineco
  | _ => .Eastron

/-- The write phase of `modbus_baudrate` (energy_meter_setup_tool.py:470-479),
entered when a new baud rate is requested: Eastron rates are mapped to their
table index, Fineco rates are used verbatim, and the value is passed to
`modbus_req` as the `set_baudrate` payload.  The preceding read of the current
rate and the posterior serial reconnect do not affect this write request. -/
def modbus_baudrate_set (m : Model) (set_baudrate : Nat) (c : Client)
    (unit_id : Nat) : Outcome Reading × List BusOp :=
  match meter_brand m with
  | .Eastron =>
      match eastron_baud_index set_baudrate with
      | none => (.fatal .unknownBaudValue, [])
      | some idx => modbus_req m "set_baudrate" c (some (.int idx)) unit_id
  | .Fineco => modbus_req m "set_baudrate" c (some (.int set_baudrate)) unit_id

/-- The voltage tolerance (energy_meter_setup_tool.py:417): 0.1 means ±10%. -/
def tolerance : ℚ := 1 / 10

/-- The plausibility test of `voltage_test` in energy_meter_setup_tool.py:418:
the reading is flagged only when it lies inside the 115 V band AND inside the
230 V band (the `and` combination as written in that file). -/
def voltage_ok_main (v : ℚ) : Bool :=
  if 115 * (1 - tolerance) < v ∧ v < 115 * (1 + tolerance) ∧
      230 * (1 - tolerance) < v ∧ v < 230 * (1 + tolerance)
  then false else true

/-- The plausibility test of `voltage_test` in meter_setuptool.py:341, with
Python operator precedence: `a or (b and c) or d` over the four comparisons. -/
def voltage_ok_alt (v : ℚ) : Bool :=
  if v < 115 * (1 - tolerance) ∨
      (115 * (1 + tolerance) < v ∧ v < 230 * (1 - tolerance)) ∨
      230 * (1 + tolerance) < v
  then false else true

/-- The voltage check as the spec words it (for comparison with the two
implementations): the reading is acceptable exactly when it lies within ±10%
of 115 V or within ±10% of 230 V, both bands inclusive. -/
def voltage_ok_spec (v : ℚ) : Bool :=
  decide ((115 * (1 - tolerance) ≤ v ∧ v ≤ 115 * (1 + tolerance)) ∨
          (230 * (1 - tolerance) ≤ v ∧ v ≤ 230 * (1 + tolerance)))

/-- A relay-capable meter as exercised by the end-to-end relay scenario: the
relay reads back the `off` pattern (`0xAAAA`) and the serial-number register
holds `0x12345678` as the words `[0x1234, 0x5678]`; writes are acknowledged
with an empty register list. -/
def c1Client : Client := fun op =>
  match op with
  | .readI 0x566 1 1 => some [0xAAAA]
  | .readI 0xFF00 2 1 => some [0x1234, 0x5678]
  | _ => some []

/-- A meter that answers every read with the single word `7` — in particular
every unit-id query, at the old and the new address alike. -/
def c3Client : Client := fun _ => some [7]

/-- A meter whose relay already reports the `on` pattern (`0x5555`). -/
def cOnClient : Client := fun op =>
  match op with
  | .readI 0x566 1 1 => some [0x5555]
  | _ => some []

theorem msbVal_nil : msbVal [] = 0 := rfl

theorem foldl_step_closed (l : List Bool) :
    ∀ a : Nat, l.foldl (fun a b => 2 * a + bitv b) a = a * 2 ^ l.length + msbVal l := by
  induction l with
  | nil => intro a; simp [msbVal]
  | cons b t ih =>
      intro a
      have h1 := ih (2 * a + bitv b)
      have h2 := ih (bitv b)
      simp only [List.foldl_cons, List.length_cons]
      rw [h1]
      have : msbVal (b :: t) = bitv b * 2 ^ t.length + msbVal t := by
        simpa [msbVal] using h2
      rw [this]
      ring

theorem msbVal_append (s t : List Bool) :
    msbVal (s ++ t) = msbVal s * 2 ^ t.length + msbVal t := by
  unfold msbVal
  rw [List.foldl_append]
  exact foldl_step_closed t _

theorem msbVal_lt (l : List Bool) : msbVal l < 2 ^ l.length := by
  induction l with
  | nil => simp [msbVal]
  | cons b t ih =>
      have h : msbVal (b :: t) = bitv b * 2 ^ t.length + msbVal t := by
        simpa [msbVal] using foldl_step_closed t (bitv b)
      have hb : bitv b ≤ 1 := by cases b <;> simp [bitv]
      calc msbVal (b :: t) = bitv b * 2 ^ t.length + msbVal t := h
    _ < bitv b * 2 ^ t.length + 2 ^ t.length := by omega
    _ ≤ 1 * 2 ^ t.length + 2 ^ t.length := by
          have := Nat.mul_le_mul_right (2 ^ t.length) hb
          omega
    _ = 2 ^ (b :: t).length := by simp [List.length_cons]; ring

theorem msbVal_reverse (l : List Bool) : msbVal l.reverse = lsbVal l := by
  induction l with
  | nil => rfl
  | cons b t ih =>
      simp only [List.reverse_cons, lsbVal]
      rw [msbVal_append, ih]
      have : msbVal [b] = bitv b := by simp [msbVal]
      simp [this]
      ring

theorem lsbVal_n2bAux : ∀ fuel n, n ≤ fuel → lsbVal (n2bAux fuel n) = n := by
  intro fuel
  induction fuel with
  | zero => intro n hn; interval_cases n; rfl
  | succ f ih =>
      intro n hn
      by_cases h0 : n = 0
      · subst h0; simp [n2bAux, lsbVal]
      · have hdiv : n / 2 ≤ f := by omega
        simp only [n2bAux, if_neg h0, lsbVal]
        rw [ih (n / 2) hdiv]
        have hm : n % 2 = 0 ∨ n % 2 = 1 := by omega
        rcases hm with hm | hm <;> simp [bitv, hm] <;> omega

theorem msbVal_binDigits (n : Nat) : msbVal (binDigits n) = n := by
  by_cases h0 : n = 0
  · subst h0; simp [binDigits, msbVal, bitv]
  · unfold binDigits
    rw [if_neg h0, msbVal_reverse]
    exact lsbVal_n2bAux n n le_rfl

theorem n2bAux_length : ∀ fuel n k, n ≤ fuel → n < 2 ^ k → (n2bAux fuel n).length ≤ k := by
  intro fuel
  induction fuel with
  | zero => intro n k hn _; interval_cases n; simp [n2bAux]
  | succ f ih =>
      intro n k hn hk
      by_cases h0 : n = 0
      · subst h0; simp [n2bAux]
      · have hk1 : 1 ≤ k := by
          by_contra h
          have : k = 0 := by omega
          subst this
          simp at hk
          omega
        have hdiv : n / 2 ≤ f := by omega
        have hdivk : n / 2 < 2 ^ (k - 1) := by
          have h2 : (2 : Nat) ^ k = 2 ^ (k - 1) * 2 := by
            rw [← pow_succ]
            congr 1
            omega
          rw [Nat.div_lt_iff_lt_mul (by omega : 0 < 2)]
          omega
        have := ih (n / 2) (k - 1) hdiv hdivk
        simp only [n2bAux, if_neg h0, List.length_cons]
        omega

theorem binDigits_length_le {n k : Nat} (hk : 1 ≤ k) (hn : n < 2 ^ k) :
    (binDigits n).length ≤ k := by
  by_cases h0 : n = 0
  · subst h0; simp [binDigits]; omega
  · unfold binDigits
    rw [if_neg h0, List.length_reverse]
    exact n2bAux_length n n k le_rfl hn

theorem msbVal_replicate_false (k : Nat) : msbVal (List.replicate k false) = 0 := by
  induction k with
  | zero => rfl
  | succ m ih =>
      have : List.replicate (m + 1) false = false :: List.replicate m false := rfl
      rw [this]
      unfold msbVal at ih ⊢
      simpa [bitv] using ih

theorem msbVal_fmtBin (w n : Nat) : msbVal (fmtBin w n) = n := by
  unfold fmtBin
  rw [msbVal_append, msbVal_replicate_false, msbVal_binDigits]
  simp

theorem fmtBin_length (w n : Nat) : (fmtBin w n).length = max w (binDigits n).length := by
  unfold fmtBin
  simp [List.length_append, List.length_replicate]
  omega

theorem fmtBin_length_of_lt {w n : Nat} (hw : 1 ≤ w) (hn : n < 2 ^ w) :
    (fmtBin w n).length = w := by
  rw [fmtBin_length]
  have := binDigits_length_le hw hn
  omega

theorem split32_spec {n : Nat} (hn : n < 2 ^ 32) :
    msbVal ((fmtBin 32 n).take 16) * 2 ^ 16 + msbVal ((fmtBin 32 n).drop 16) = n ∧
    msbVal ((fmtBin 32 n).take 16) < 2 ^ 16 ∧
    msbVal ((fmtBin 32 n).drop 16) < 2 ^ 16 := by
  have hlen : (fmtBin 32 n).length = 32 := fmtBin_length_of_lt (by norm_num) hn
  have hlt : ((fmtBin 32 n).take 16).length = 16 := by
    rw [List.length_take, hlen]
    norm_num
  have hld : ((fmtBin 32 n).drop 16).length = 16 := by
    rw [List.length_drop, hlen]
  have hval : msbVal ((fmtBin 32 n).take 16) * 2 ^ 16 + msbVal ((fmtBin 32 n).drop 16) = n := by
    have h1 : msbVal ((fmtBin 32 n).take 16 ++ (fmtBin 32 n).drop 16) = n := by
      rw [List.take_append_drop]
      exact msbVal_fmtBin 32 n
    rw [msbVal_append, hld] at h1
    exact h1
  refine ⟨hval, ?_, ?_⟩
  · have := msbVal_lt ((fmtBin 32 n).take 16)
    rwa [hlt] at this
  · have := msbVal_lt ((fmtBin 32 n).drop 16)
    rwa [hld] at this

theorem u32_two_words {a b : Nat} (hb : b < 2 ^ 16) :
    u32 [a, b] = some (a * 2 ^ 16 + b) := by
  have hlb : (fmtBin 16 b).length = 16 := fmtBin_length_of_lt (by norm_num) hb
  unfold u32
  simp only [List.isEmpty_cons, List.flatMap_cons, List.flatMap_nil, List.append_nil,
    Bool.false_eq_true, if_false]
  rw [msbVal_append, hlb, msbVal_fmtBin, msbVal_fmtBin]

/-- C5: for every `n` in `[0, 2^32-1]`, decoding the two words produced by the
unsigned-32-bit encoder yields `n` again: `u32 (reverse_u32 n) = n`. -/
theorem u32_reverse_u32_roundtrip (n : Nat) (hn : n < 2 ^ 32) :
    u32 (reverse_u32 n) = some n := by
  obtain ⟨hsum, hhi, hlo⟩ := split32_spec hn
  unfold reverse_u32
  rw [u32_two_words hlo, hsum]

/-- Witness for C5 at the concrete serial number `0x12345678`. -/
theorem u32_reverse_u32_roundtrip_witness :
    305419896 < 2 ^ 32 ∧ u32 (reverse_u32 305419896) = some 305419896 :=
  ⟨by norm_num, u32_reverse_u32_roundtrip 305419896 (by norm_num)⟩

/-- C6: for every valid 32-bit float pattern `p` (float32 values being
identified with their bit patterns, `struct.pack`/`unpack` the bijection
between them), encoding to two words and decoding returns the same pattern:
`ieee754 (reverse_ieee754 p) = p`. -/
theorem ieee754_reverse_ieee754_roundtrip (p : Nat) (hp : p < 2 ^ 32) :
    ieee754 (reverse_ieee754 p) = some p := by
  obtain ⟨hsum, hhi, hlo⟩ := split32_spec hp
  rw [show ieee754 (reverse_ieee754 p) =
      some (msbVal (fmtBin 16 (msbVal ((fmtBin 32 p).take 16) &&& 0xffff) ++
        fmtBin 16 (msbVal ((fmtBin 32 p).drop 16) &&& 0xffff))) from rfl]
  have hmask : (0xffff : Nat) = 2 ^ 16 - 1 := by norm_num
  rw [hmask, Nat.and_pow_two_sub_one_of_lt_two_pow hhi,
    Nat.and_pow_two_sub_one_of_lt_two_pow hlo]
  have hlb : (fmtBin 16 (msbVal ((fmtBin 32 p).drop 16))).length = 16 :=
    fmtBin_length_of_lt (by norm_num) hlo
  rw [msbVal_append, hlb, msbVal_fmtBin, msbVal_fmtBin, hsum]

/-- Witness for C6 at a concrete float32 pattern. -/
theorem ieee754_reverse_ieee754_roundtrip_witness :
    66000 < 2 ^ 32 ∧ ieee754 (reverse_ieee754 66000) = some 66000 :=
  ⟨by norm_num, ieee754_reverse_ieee754_roundtrip 66000 (by norm_num)⟩

/-- C7 counterexample: on `[1, 257]` the binary decoder does NOT produce the
concatenation claimed by the spec (whose second half `0000000101000001` is the
rendering of 321, not of 257). -/
theorem binary_claimed_value_counterexample :
    ¬ binary [1, 257] = "0000000000000001" ++ "0000000101000001" := by decide

/-- C7 amended: each word is rendered as a 16-character zero-padded binary
string and the strings are concatenated in word order; on `[1, 257]` the
result is `0000000000000001` followed by `0000000100000001`. -/
theorem binary_concrete_value :
    binary [1, 257] = "0000000000000001" ++ "0000000100000001" ∧
    (∀ a b : Nat, binary [a, b] =
      String.mk ((fmtBin 16 a).map binChar) ++ String.mk ((fmtBin 16 b).map binChar)) ∧
    ∀ w : Nat, w < 2 ^ 16 → ((fmtBin 16 w).map binChar).length = 16 := by
  refine ⟨by decide, ?_, ?_⟩
  · intro a b
    show String.mk ((([a, b].flatMap (fmtBin 16))).map binChar) = _
    simp only [List.flatMap_cons, List.flatMap_nil, List.append_nil, List.map_append]
    rfl
  · intro w hw
    rw [List.length_map]
    exact fmtBin_length_of_lt (by norm_num) hw

/-- Witness for the C7 amended theorem's padded-width conjunct at `w = 257`. -/
theorem binary_concrete_value_witness :
    binary [1, 257] = "0000000000000001" ++ "0000000100000001" ∧
    ((fmtBin 16 257).map binChar).length = 16 :=
  ⟨binary_concrete_value.1, binary_concrete_value.2.2 257 (by norm_num)⟩

/-- C9 counterexample: the u32 decoder, applied to a three-word list (a wrong
word count for the two-word encoding), returns a value instead of failing. -/
theorem u32_wrong_word_count_counterexample :
    u32 [1, 2, 3] = some 4295098371 := by decide

/-- C9 amended: malformed codec input is not rejected with a dedicated
encoding error: the u32 decoder accepts any nonempty word count and decodes
the concatenation of all supplied words; the u32 encoder accepts an
out-of-range integer and produces words that decode to a different value
(here `2^32` comes back as `2^31`); only the decoders that index positions
beyond the supplied list fail, with a plain index error. -/
theorem codec_malformed_input_behavior :
    u32 [1, 2, 3] = some 4295098371 ∧
    u32 (reverse_u32 4294967296) = some 2147483648 ∧
    ieee754 [5] = none ∧ u16 [] = none ∧ hex_str [5] = none := by
  refine ⟨by decide, by decide, rfl, rfl, rfl⟩

/-- C1 counterexample: with the serial number `0x12345678` the derived relay
key is `0x1020 = 4128`, not `0x1230 = 4656` as claimed (the claim's own
formula `((sn >> 24) + (sn >> 8)) & 0x1234` evaluates to `0x1020`), and the
end-to-end trace writes `[4128, 21845]`, not `[4656, 21845]`. -/
theorem relay_key_claimed_value_counterexample :
    fineco_generate_key 305419896 = 4128 ∧
    ¬ fineco_generate_key 305419896 = 4656 ∧
    ¬ (modbus_relay .EM115 (some "on") c1Client 1).2 =
        [.readI 0x566 1 1, .readI 0xFF00 2 1,
         .write 0x566 (.list [4656, 21845]) 1, .readI 0x566 1 1] := by
  refine ⟨by decide, by decide, by decide⟩

/-- C1 amended: for a relay-capable model whose serial-number register reads
`0x12345678`, requesting relay state `on` (when the current state differs)
derives the relay key `((sn >> 24) + (sn >> 8)) & 0x1234 = 0x1020` and issues
a single write of `[0x1020, 21845]` to the relay-state-set register before
re-reading to confirm. -/
theorem relay_on_end_to_end :
    modbus_relay .EM115 (some "on") c1Client 1 =
      (.ok (some "off"),
       [.readI 0x566 1 1, .readI 0xFF00 2 1,
        .write 0x566 (.list [4128, 21845]) 1, .readI 0x566 1 1]) := by decide

/-- C4: a request for a register name absent from the selected model's catalog
returns a Reading with absent value and the fixed info text, without issuing
any bus transaction and without a fatal outcome. -/
theorem modbus_req_unsupported_register (m : Model) (register_name : String)
    (c : Client) (payload : Option Payload) (unit_id : Nat)
    (h : List.lookup register_name (meter_regs m) = none) :
    modbus_req m register_name c payload unit_id =
      (.ok ⟨none, "Not supported for this model"⟩, []) := by
  unfold modbus_req
  rw [h]

/-- Witness for C4: the Eastron SDM120 has no relay-state register. -/
theorem modbus_req_unsupported_register_witness :
    modbus_req .SDM120 "relay_state" cOnClient none 1 =
      (.ok ⟨none, "Not supported for this model"⟩, []) :=
  modbus_req_unsupported_register .SDM120 "relay_state" cOnClient none 1 (by decide)

/-- C10: a write request whose payload is falsy (the integer 0 or an empty
list) aborts fatally with the missing-payload error and issues no bus
transaction; in particular, setting an Eastron meter's baud rate to 2400
(table index 0) always dies with the missing-payload error instead of
writing. -/
theorem falsy_payload_write_aborts :
    (∀ (m : Model) (register_name : String) (e : RegEntry) (p : Payload)
        (c : Client) (unit_id : Nat),
        List.lookup register_name (meter_regs m) = some e → e.fc = 16 →
        payloadFalsy (some p) = true →
        modbus_req m register_name c (some p) unit_id =
          (.fatal (.missingPayload register_name), [])) ∧
    (∀ (c : Client) (unit_id : Nat),
        modbus_baudrate_set .SDM120 2400 c unit_id =
          (.fatal (.missingPayload "set_baudrate"), [])) := by
  constructor
  · intro m register_name e p c unit_id h hfc hp
    unfold modbus_req
    simp [h, hfc, hp]
  · intro c unit_id
    rfl

/-- Witness for C10: an empty-list payload for the Fineco relay-set register,
and the Eastron 2400-baud request, both with a concrete client. -/
theorem falsy_payload_write_aborts_witness :
    modbus_req .EM115 "set_relay_state" cOnClient (some (.list [])) 1 =
      (.fatal (.missingPayload "set_relay_state"), []) ∧
    modbus_baudrate_set .SDM120 2400 cOnClient 1 =
      (.fatal (.missingPayload "set_baudrate"), []) :=
  ⟨falsy_payload_write_aborts.1 .EM115 "set_relay_state"
      ⟨16, 0x566, 2, "", .blank⟩ (.list []) cOnClient 1 (by decide) rfl rfl,
   falsy_payload_write_aborts.2 cOnClient 1⟩

/-- C2: the voltage check of energy_meter_setup_tool.py accepts EVERY reading
(its flagging condition demands membership in both voltage bands at once,
which is impossible) — in particular it accepts the implausible 170.0 V the
claim requires to fail — whereas the sibling meter_setuptool.py variant
realises exactly the claimed inclusive-OR band semantics. -/
theorem voltage_check_behavior :
    (∀ v : ℚ, voltage_ok_main v = true) ∧
    voltage_ok_main 170 = true ∧
    voltage_ok_spec 170 = false ∧
    (∀ v : ℚ, voltage_ok_alt v = voltage_ok_spec v) := by
  have hmain : ∀ v : ℚ, voltage_ok_main v = true := by
    intro v
    unfold voltage_ok_main tolerance
    rw [if_neg]
    rintro ⟨h1, h2, h3, h4⟩
    norm_num at h2 h3
    linarith
  have hspec170 : voltage_ok_spec 170 = false := by
    unfold voltage_ok_spec tolerance
    rw [decide_eq_false_iff_not]
    rintro (⟨ha, hb⟩ | ⟨ha, hb⟩) <;> norm_num at ha hb
  refine ⟨hmain, hmain 170, hspec170, ?_⟩
  intro v
  have lhs_iff : voltage_ok_alt v = true ↔
      ¬(v < 115 * (1 - tolerance) ∨
        (115 * (1 + tolerance) < v ∧ v < 230 * (1 - tolerance)) ∨
        230 * (1 + tolerance) < v) := by
    unfold voltage_ok_alt
    split
    next h => simp [h]
    next h => simp [h]
  have rhs_iff : voltage_ok_spec v = true ↔
      ((115 * (1 - tolerance) ≤ v ∧ v ≤ 115 * (1 + tolerance)) ∨
       (230 * (1 - tolerance) ≤ v ∧ v ≤ 230 * (1 + tolerance))) := by
    unfold voltage_ok_spec
    simp
  rw [Bool.eq_iff_iff, lhs_iff, rhs_iff]
  unfold tolerance
  constructor
  · intro h
    push_neg at h
    obtain ⟨h1, h2, h3⟩ := h
    by_cases hv : v ≤ 115 * (1 + (1 : ℚ) / 10)
    · left
      exact ⟨by linarith, hv⟩
    · right
      have h207 := h2 (by linarith)
      exact ⟨by linarith, by linarith⟩
  · intro h
    push_neg
    rcases h with ⟨ha, hb⟩ | ⟨ha, hb⟩
    · exact ⟨by linarith, fun hc => by linarith, by linarith⟩
    · exact ⟨by linarith, fun hc => by linarith, by linarith⟩

theorem relay_state_lookup {m : Model} (hm : m.isEM = true) :
    List.lookup "relay_state" (meter_regs m) =
      some ⟨4, 0x566, 1, "(01..=on, 10..=off)", DType.bin⟩ := by
  cases m <;> first | rfl | simp [Model.isEM] at hm

theorem modbus_req_relay_state {m : Model} (c : Client) (unit_id : Nat)
    (hm : m.isEM = true) :
    modbus_req m "relay_state" c none unit_id =
      runOp "relay_state" ⟨4, 0x566, 1, "(01..=on, 10..=off)", DType.bin⟩ c
        (BusOp.readI 0x566 1 unit_id) := by
  unfold modbus_req
  rw [relay_state_lookup hm]
  rfl

theorem get_relay_state_trace (m : Model) (c : Client) (unit_id : Nat)
    (hm : m.isEM = true) :
    (get_relay_state m c unit_id).2 = [BusOp.readI 0x566 1 unit_id] := by
  unfold get_relay_state
  rw [modbus_req_relay_state c unit_id hm]
  unfold runOp
  rcases hc : c (BusOp.readI 0x566 1 unit_id) with _ | regs
  · simp [hc]
  · by_cases hre : regs.isEmpty
    · simp [hc, hre]
    · simp [hc, hre, decodeValue]
      split <;> simp

theorem get_relay_state_ok_val (m : Model) (c : Client) (unit_id : Nat)
    (s : String) (t : List BusOp) (hm : m.isEM = true)
    (h : get_relay_state m c unit_id = (.ok s, t)) : s = "on" ∨ s = "off" := by
  unfold get_relay_state at h
  rw [modbus_req_relay_state c unit_id hm] at h
  unfold runOp at h
  rcases hc : c (BusOp.readI 0x566 1 unit_id) with _ | regs
  · simp [hc] at h
  · by_cases hre : regs.isEmpty
    · simp [hc, hre] at h
    · simp [hc, hre, decodeValue] at h
      split at h
      · rw [Prod.mk.injEq] at h
        obtain ⟨h1, _⟩ := h
        rw [Outcome.ok.injEq] at h1
        split at h1
        · left
          exact h1.symm
        · right
          exact h1.symm
      · simp at h

/-- C8: if the relay's current state (as read by `get_relay_state`) already
equals the requested state, `modbus_relay` issues no write and no
serial-number read — its whole trace is the single relay-state read — and
returns the unchanged current state. -/
theorem relay_noop_when_state_matches (m : Model) (c : Client) (unit_id : Nat)
    (s : String) (t : List BusOp) (hm : m.isEM = true)
    (h : get_relay_state m c unit_id = (.ok s, t)) :
    modbus_relay m (some s) c unit_id = (.ok (some s), t) ∧
    t = [BusOp.readI 0x566 1 unit_id] := by
  have hs := get_relay_state_ok_val m c unit_id s t hm h
  have ht : t = [BusOp.readI 0x566 1 unit_id] := by
    have htr := get_relay_state_trace m c unit_id hm
    rw [h] at htr
    exact htr
  refine ⟨?_, ht⟩
  rcases hs with rfl | rfl <;>
    simp [modbus_relay, hm, h, normalize_set_state, relayArgOk]

/-- Witness for C8: EM115 relay already `on`; the run is a single read. -/
theorem relay_noop_when_state_matches_witness :
    Model.isEM .EM115 = true ∧
    get_relay_state .EM115 cOnClient 1 = (.ok "on", [BusOp.readI 0x566 1 1]) ∧
    modbus_relay .EM115 (some "on") cOnClient 1 =
      (.ok (some "on"), [BusOp.readI 0x566 1 1]) :=
  ⟨rfl, by decide,
   (relay_noop_when_state_matches .EM115 cOnClient 1 "on"
      [BusOp.readI 0x566 1 1] rfl (by decide)).1⟩

theorem modbus_unit_id_step (fuel : Nat) (uidArg : Option Nat) :
    modbus_unit_id (fuel + 1) .EM115 (some 5) uidArg 1 c3Client =
      ((modbus_unit_id fuel .EM115 (some 5) (some 5) 1 c3Client).1,
       BusOp.readI 0x524 1 (if optFalsy uidArg then 1 else uidArg.getD 1) ::
         BusOp.write 0x524 (.int 5) 1 ::
         (modbus_unit_id fuel .EM115 (some 5) (some 5) 1 c3Client).2) := by
  rfl

/-- C3: requesting a new unit id never terminates: at every recursion depth
the configurator is still descending (the fuel-indexed embedding returns no
result for any fuel) and it has issued one set-unit-id write per depth, so
the single claimed write-then-confirm round never completes — in Python the
mutual recursion re-issues the write forever until the recursion limit kills
the process. -/
theorem modbus_unit_id_never_returns :
    ∀ (fuel : Nat) (uidArg : Option Nat),
      (modbus_unit_id fuel .EM115 (some 5) uidArg 1 c3Client).1 = none ∧
      countWrites (modbus_unit_id fuel .EM115 (some 5) uidArg 1 c3Client).2 = fuel := by
  intro fuel
  induction fuel with
  | zero => intro uidArg; exact ⟨rfl, rfl⟩
  | succ f ih =>
      intro uidArg
      obtain ⟨ih1, ih2⟩ := ih (some 5)
      rw [modbus_unit_id_step f uidArg]
      refine ⟨ih1, ?_⟩
      simp only [countWrites, List.countP_cons] at ih2 ⊢
      simp
      omega
